import Mathlib

/-!
Verification of `internal/alloydbutil/engine.go`: a shallow embedding of the
AlloyDB Postgres engine (identity resolution, connection-pool construction,
DDL generation) together with theorems checking the specification's claims.

Conventions of the embedding:
  * Go strings become `String`; the Go zero value `""` is the "absent" marker,
    exactly as in the source.
  * Fallible Go functions returning `(T, error)` become `Except String T`,
    carrying the error message produced by the source's `fmt.Errorf`/`errors.New`.
  * The injected `EmailRetriever func(context.Context) (string, error)` becomes
    `Unit → Except String String` (the `context.Context` argument carries no
    information used by this code).  To express "the retriever is invoked
    exactly once", `getUser` is instrumented to also return the number of
    retriever invocations performed on the taken branch.
  * External collaborators (the alloydbconn dialer, pgxpool) are opaque: their
    outcomes are parameters (`PoolBackend`), and a pool handle is an abstract
    `PoolState`.
-/

/-- State of an external `pgxpool.Pool` handle (opaque to this package). -/
inductive PoolState where
  | live : PoolState
  | closed : PoolState
deriving DecidableEq, Repr

/-- Shallow embedding of `engineConfig` (assembled by `applyClientOptions`).
Field names follow the Go source; `instance` is spelled `instanceName` because
`instance` is a Lean keyword.  `emailRetreiver` keeps the source's spelling. -/
structure engineConfig where
  projectID : String := ""
  region : String := ""
  cluster : String := ""
  instanceName : String := ""
  user : String := ""
  password : String := ""
  database : String := ""
  ipType : String := ""
  iamAccountEmail : String := ""
  emailRetreiver : Unit → Except String String := fun _ => Except.error ""
  connPool : Option PoolState := none

/-- Shallow embedding of `Column`. -/
structure Column where
  Name : String
  DataType : String
  Nullable : Bool
deriving DecidableEq, Repr

/-- Shallow embedding of `PostgresEngine`: `Pool *pgxpool.Pool` is a nullable
pointer, embedded as `Option PoolState`. -/
structure PostgresEngine where
  Pool : Option PoolState
deriving DecidableEq, Repr

/-- Shallow embedding of `getUser` (engine.go lines 93-112).  The first
component is the Go result `(string, bool, error)` collapsed to
`Except String (String × Bool)`; the second component counts how many times
`config.emailRetreiver` was invoked. -/
def getUser (config : engineConfig) : Except String (String × Bool) × Nat :=
  if config.user ≠ "" ∧ config.password ≠ "" then
    (Except.ok (config.user, false), 0)
  else if config.iamAccountEmail ≠ "" then
    (Except.ok (config.iamAccountEmail, true), 0)
  else if config.user = "" ∧ config.password = "" ∧ config.iamAccountEmail = "" then
    match config.emailRetreiver () with
    | Except.error err =>
        (Except.error ("unable to retrieve service account email: " ++ err), 1)
    | Except.ok serviceAccountEmail =>
        (Except.ok (serviceAccountEmail, true), 1)
  else
    (Except.error "unable to retrieve a valid username", 0)

/-- The data-source descriptor string assembled by `createPool`
(engine.go lines 55-59). -/
def createPoolDSN (cfg : engineConfig) (usingIAMAuth : Bool) : String :=
  if usingIAMAuth then
    "user=" ++ cfg.user ++ " dbname=" ++ cfg.database ++ " sslmode=disable"
  else
    "user=" ++ cfg.user ++ " password=" ++ cfg.password ++ " dbname=" ++ cfg.database
      ++ " sslmode=disable"

/-- The fully-qualified instance URI assembled by `createPool` (engine.go line 69). -/
def instanceURI (cfg : engineConfig) : String :=
  "projects/" ++ cfg.projectID ++ "/locations/" ++ cfg.region ++ "/clusters/"
    ++ cfg.cluster ++ "/instances/" ++ cfg.instanceName

/-- Network path selected by the installed dial function. -/
inductive IPPath where
  | privateIP : IPPath
  | publicIP : IPPath
deriving DecidableEq, Repr

/-- Shallow embedding of the dial function installed by `createPool`
(engine.go lines 70-75): every call dials the instance URI, with the private
path exactly when `cfg.ipType == "PRIVATE"`.  The two ignored string arguments
of the Go closure are dropped. -/
def dialFunc (cfg : engineConfig) : String × IPPath :=
  if cfg.ipType = "PRIVATE" then
    (instanceURI cfg, IPPath.privateIP)
  else
    (instanceURI cfg, IPPath.publicIP)

/-- Outcomes of the external collaborators used by `createPool`:
`alloydbconn.NewDialer`, `pgxpool.ParseConfig` (applied to the assembled
descriptor) and `pgxpool.NewWithConfig`.  These are opaque I/O primitives, so
their results are inputs of the embedding. -/
structure PoolBackend where
  newDialer : Except String Unit
  parseConfig : String → Except String Unit
  newWithConfig : Except String PoolState

/-- Shallow embedding of `createPool` (engine.go lines 53-81): assembles the
descriptor, consults the external primitives in source order, and wraps each
failure with the source's static prefix. -/
def createPool (backend : PoolBackend) (cfg : engineConfig) (usingIAMAuth : Bool) :
    Except String PoolState :=
  let dsn := createPoolDSN cfg usingIAMAuth
  match backend.newDialer with
  | Except.error err => Except.error ("failed to initialize connection: " ++ err)
  | Except.ok _ =>
    match backend.parseConfig dsn with
    | Except.error err => Except.error ("failed to parse connection config: " ++ err)
    | Except.ok _ =>
      match backend.newWithConfig with
      | Except.error err => Except.error ("unable to create connection pool: " ++ err)
      | Except.ok pool => Except.ok pool

/-- Shallow embedding of `NewPostgresEngine` (engine.go lines 29-50).  The Go
return `(*PostgresEngine, error)` becomes `Option PostgresEngine × Option String`
(`none` models a nil pointer / nil error).  `applyClientOptions` is not part of
this file's sources, so its outcome is the parameter `optsResult`. -/
def NewPostgresEngine (backend : PoolBackend) (optsResult : Except String engineConfig) :
    Option PostgresEngine × Option String :=
  match optsResult with
  | Except.error err => (none, some err)
  | Except.ok cfg =>
    match (getUser cfg).1 with
    | Except.error err => (none, some ("error assigning user. Err: " ++ err))
    | Except.ok (user, usingIAMAuth) =>
      let cfg1 := if usingIAMAuth then { cfg with user := user } else cfg
      match cfg1.connPool with
      | some pool => (some { Pool := some pool }, none)
      | none =>
        match createPool backend cfg1 usingIAMAuth with
        | Except.error err => (some { Pool := none }, some err)
        | Except.ok pool => (some { Pool := some pool }, none)

/-- Release of an external pool handle (`pgxpool.Pool.Close`), safe on any state. -/
def poolClose : PoolState → PoolState := fun _ => PoolState.closed

/-- Shallow embedding of `(*PostgresEngine).Close` (engine.go lines 84-89).
The result is `Except String PostgresEngine`: an `Except.error` would model a
Go runtime panic (nil-pointer dereference of `p.Pool`); the source's nil guard
means the pool is only dereferenced when present. -/
def PostgresEngine.Close (p : PostgresEngine) : Except String PostgresEngine :=
  match p.Pool with
  | none => Except.ok p
  | some pool => Except.ok { Pool := some (poolClose pool) }

/-- Shallow embedding of `VectorstoreTableOptions`.  `VectorSize` is a Go `int`,
embedded as `Int` (its `%d` rendering matches `toString`). -/
structure VectorstoreTableOptions where
  TableName : String := ""
  VectorSize : Int := 0
  SchemaName : String := ""
  ContentColumnName : String := ""
  EmbeddingColumn : String := ""
  MetadataJsonColumn : String := ""
deriving DecidableEq, Repr

/-- Shallow embedding of `NewVectorstoreTableOptions` (engine.go lines 143-178):
validates the required fields (pure, no I/O), then substitutes defaults for the
optional ones. -/
def NewVectorstoreTableOptions (opts : VectorstoreTableOptions) :
    Except String VectorstoreTableOptions :=
  if opts.TableName = "" then
    Except.error "missing table name in options"
  else if opts.VectorSize = 0 then
    Except.error "missing vector size in options"
  else
    Except.ok
      { TableName := opts.TableName
        VectorSize := opts.VectorSize
        SchemaName := if opts.SchemaName ≠ "" then opts.SchemaName else "public"
        ContentColumnName :=
          if opts.ContentColumnName ≠ "" then opts.ContentColumnName else "content"
        EmbeddingColumn :=
          if opts.EmbeddingColumn ≠ "" then opts.EmbeddingColumn else "embedding"
        MetadataJsonColumn :=
          if opts.MetadataJsonColumn ≠ "" then opts.MetadataJsonColumn
          else "langchain_metadata" }

/-- One metadata-column fragment appended by the loop in `InitVectorstoreTable`
(engine.go lines 211-217): `fmt.Sprintf(", \x22%s\x22 %s %s", name, type, nullable)`
where `nullable` is `"NOT NULL"` for non-nullable columns and `""` otherwise. -/
def metadataClause (column : Column) : String :=
  ", \"" ++ column.Name ++ "\" " ++ column.DataType ++ " "
    ++ (if !column.Nullable then "NOT NULL" else "")

/-- The CREATE TABLE statement assembled by `InitVectorstoreTable`
(engine.go lines 196-224), including the id-column defaulting that the source
performs just before assembly.  String literals reproduce the source's raw
string literals byte for byte (newline plus two tabs between the fixed column
lines). -/
def initVectorstoreTableCreateQuery (vsTableOpts : VectorstoreTableOptions)
    (metadataColumns : List Column) (idColumn : Column) (storeMetadata : Bool) : String :=
  let idColumn1 :=
    if idColumn.Name = "" then { idColumn with Name := "langchain_id" } else idColumn
  let idColumn2 :=
    if idColumn1.DataType = "" then { idColumn1 with DataType := "UUID" } else idColumn1
  let query :=
    "CREATE TABLE \"" ++ vsTableOpts.SchemaName ++ "\".\"" ++ vsTableOpts.TableName
      ++ "\" (\n\t\t\"" ++ idColumn2.Name ++ "\" " ++ idColumn2.DataType
      ++ " PRIMARY KEY,\n\t\t\"" ++ vsTableOpts.ContentColumnName
      ++ "\" TEXT NOT NULL,\n\t\t\"" ++ vsTableOpts.EmbeddingColumn
      ++ "\" vector(" ++ toString vsTableOpts.VectorSize ++ ") NOT NULL"
  let query := metadataColumns.foldl (fun q column => q ++ metadataClause column) query
  let query :=
    if storeMetadata then
      query ++ ", \"" ++ vsTableOpts.MetadataJsonColumn ++ "\" JSON"
    else query
  query ++ ");"

/-- The DROP statement issued by `InitVectorstoreTable` when overwriting
(engine.go line 190). -/
def dropTableStatement (vsTableOpts : VectorstoreTableOptions) : String :=
  "DROP TABLE IF EXISTS \"" ++ vsTableOpts.SchemaName ++ "\".\"" ++ vsTableOpts.TableName ++ "\""

/-- The full sequence of SQL statements `InitVectorstoreTable` executes against
the pool, in source order (engine.go lines 181-233): the extension, the
conditional drop, then the CREATE TABLE statement. -/
def initVectorstoreTableStatements (vsTableOpts : VectorstoreTableOptions)
    (metadataColumns : List Column) (idColumn : Column)
    (overwriteExisting storeMetadata : Bool) : List String :=
  ["CREATE EXTENSION IF NOT EXISTS vector"]
    ++ (if overwriteExisting then [dropTableStatement vsTableOpts] else [])
    ++ [initVectorstoreTableCreateQuery vsTableOpts metadataColumns idColumn storeMetadata]

/-- The CREATE TABLE IF NOT EXISTS statement assembled by `InitChatHistoryTable`
(engine.go lines 237-242), byte for byte (the raw string literal carries a
newline plus two tabs before each column and a newline plus one tab before the
closing parenthesis). -/
def initChatHistoryTableQuery (tableName schemaName : String) : String :=
  "CREATE TABLE IF NOT EXISTS \"" ++ schemaName ++ "\".\"" ++ tableName
    ++ "\" (\n\t\tid SERIAL PRIMARY KEY,\n\t\tsession_id TEXT NOT NULL,"
    ++ "\n\t\tdata JSONB NOT NULL,\n\t\ttype TEXT NOT NULL\n\t);"

/-- Model of the external database's catalog, as far as this code observes it:
the set of existing (schema, table) pairs. -/
abbrev Database : Type := List (String × String)

/-- Model of the external database's documented execution of a
`CREATE TABLE IF NOT EXISTS` statement: succeeds whether or not the table
exists, creating it only when absent. -/
def execCreateTableIfNotExists (db : Database) (schemaName tableName : String) :
    Except String Database :=
  if (schemaName, tableName) ∈ db then Except.ok db
  else Except.ok ((schemaName, tableName) :: db)

/-- Shallow embedding of `InitChatHistoryTable` (engine.go lines 236-250):
generates its single statement and executes it, wrapping any execution failure
with the source's prefix.  The statement's effect on the catalog is the
documented create-if-not-exists semantics above. -/
def InitChatHistoryTable (db : Database) (tableName schemaName : String) :
    Except String Database :=
  let _createTableQuery := initChatHistoryTableQuery tableName schemaName
  match execCreateTableIfNotExists db schemaName tableName with
  | Except.error err => Except.error ("failed to execute query: " ++ err)
  | Except.ok db1 => Except.ok db1

/-- Concatenation of a list of strings, in order. -/
def concatStr : List String → String
  | [] => ""
  | s :: rest => s ++ concatStr rest

/-- Comma-separated join of a list of strings. -/
def joinComma : List String → String
  | [] => ""
  | [s] => s
  | s :: rest => s ++ "," ++ joinComma rest

/-- Column clauses of the vector-store CREATE TABLE statement as the spec
describes them: the id column with PRIMARY KEY, the content column, the
embedding column, then each metadata column in caller order (NOT NULL exactly
when non-nullable), then the optional trailing JSON metadata column.  Written
from the spec's words, for comparison with the statement the code assembles;
each clause carries the whitespace that precedes it in the statement. -/
def specVectorColumnClauses (vsTableOpts : VectorstoreTableOptions)
    (metadataColumns : List Column) (idColumn : Column) (storeMetadata : Bool) :
    List String :=
  let idName := if idColumn.Name = "" then "langchain_id" else idColumn.Name
  let idType := if idColumn.DataType = "" then "UUID" else idColumn.DataType
  ["\n\t\t\"" ++ idName ++ "\" " ++ idType ++ " PRIMARY KEY",
   "\n\t\t\"" ++ vsTableOpts.ContentColumnName ++ "\" TEXT NOT NULL",
   "\n\t\t\"" ++ vsTableOpts.EmbeddingColumn ++ "\" vector("
     ++ toString vsTableOpts.VectorSize ++ ") NOT NULL"]
  ++ metadataColumns.map (fun column =>
       " \"" ++ column.Name ++ "\" " ++ column.DataType ++ " "
         ++ (if column.Nullable then "" else "NOT NULL"))
  ++ (if storeMetadata then [" \"" ++ vsTableOpts.MetadataJsonColumn ++ "\" JSON"] else [])

/-- A CREATE TABLE statement over an explicit, ordered clause list (spec side). -/
def specCreateTableStatement (schemaName tableName : String) (clauses : List String) :
    String :=
  "CREATE TABLE \"" ++ schemaName ++ "\".\"" ++ tableName ++ "\" ("
    ++ joinComma clauses ++ ");"

theorem concatStr_append (xs ys : List String) :
    concatStr (xs ++ ys) = concatStr xs ++ concatStr ys := by
  induction xs with
  | nil => simp [concatStr]
  | cons x xs ih => simp [concatStr, ih, String.append_assoc]

theorem joinComma_cons (x : String) (rest : List String) :
    joinComma (x :: rest) = x ++ concatStr (rest.map (fun s => "," ++ s)) := by
  induction rest generalizing x with
  | nil => simp [joinComma, concatStr]
  | cons y ys ih => simp [joinComma, ih, concatStr, String.append_assoc]

theorem mergeOpenParen (x : String) :
    "\" (" ++ ("\n\t\t\"" ++ x) = "\" (\n\t\t\"" ++ x := by
  rw [← String.append_assoc]; rfl

theorem mergePrimaryKey (x : String) :
    " PRIMARY KEY" ++ ("," ++ ("\n\t\t\"" ++ x)) = " PRIMARY KEY,\n\t\t\"" ++ x := by
  rw [← String.append_assoc, ← String.append_assoc]; rfl

theorem mergeTextNotNull (x : String) :
    "\" TEXT NOT NULL" ++ ("," ++ ("\n\t\t\"" ++ x)) = "\" TEXT NOT NULL,\n\t\t\"" ++ x := by
  rw [← String.append_assoc, ← String.append_assoc]; rfl

theorem mergeCommaQuote (x : String) :
    "," ++ (" \"" ++ x) = ", \"" ++ x := by
  rw [← String.append_assoc]; rfl

theorem metadataClause_spec (column : Column) :
    metadataClause column =
      "," ++ (" \"" ++ column.Name ++ "\" " ++ column.DataType ++ " "
        ++ (if column.Nullable then "" else "NOT NULL")) := by
  cases h : column.Nullable <;>
    simp [metadataClause, h, mergeCommaQuote, String.append_assoc]

theorem foldl_metadataClause (cols : List Column) (q : String) :
    cols.foldl (fun acc column => acc ++ metadataClause column) q
      = q ++ concatStr (cols.map (fun column =>
          "," ++ (" \"" ++ column.Name ++ "\" " ++ column.DataType ++ " "
            ++ (if column.Nullable then "" else "NOT NULL")))) := by
  induction cols generalizing q with
  | nil => simp [concatStr]
  | cons c cs ih =>
    rw [List.foldl_cons, ih, metadataClause_spec]
    simp [concatStr, String.append_assoc]

set_option maxRecDepth 4000 in
/-- C5: the statements issued by `InitVectorstoreTable` have a fixed shape:
the extension statement; a DROP TABLE IF EXISTS statement exactly when the
overwrite flag is set; then one CREATE TABLE statement whose column clauses
are, in this order: the (defaulted) id column with PRIMARY KEY, the content
column as TEXT NOT NULL, the embedding column as vector(dim) NOT NULL, each
metadata column in the caller-supplied order with NOT NULL exactly when
declared non-nullable, and a trailing JSON metadata column exactly when
storeMetadata is set. -/
theorem initVectorstoreTable_statement_shape (vsTableOpts : VectorstoreTableOptions)
    (metadataColumns : List Column) (idColumn : Column)
    (overwriteExisting storeMetadata : Bool) :
    initVectorstoreTableStatements vsTableOpts metadataColumns idColumn
        overwriteExisting storeMetadata =
      ["CREATE EXTENSION IF NOT EXISTS vector"]
        ++ (if overwriteExisting then
              ["DROP TABLE IF EXISTS \"" ++ vsTableOpts.SchemaName ++ "\".\""
                ++ vsTableOpts.TableName ++ "\""]
            else [])
        ++ [specCreateTableStatement vsTableOpts.SchemaName vsTableOpts.TableName
              (specVectorColumnClauses vsTableOpts metadataColumns idColumn storeMetadata)] := by
  have hcreate : initVectorstoreTableCreateQuery vsTableOpts metadataColumns idColumn
      storeMetadata
      = specCreateTableStatement vsTableOpts.SchemaName vsTableOpts.TableName
          (specVectorColumnClauses vsTableOpts metadataColumns idColumn storeMetadata) := by
    by_cases hn : idColumn.Name = "" <;> by_cases hd : idColumn.DataType = "" <;>
      cases storeMetadata <;>
      simp [initVectorstoreTableCreateQuery, specCreateTableStatement,
            specVectorColumnClauses, hn, hd, joinComma_cons, foldl_metadataClause,
            concatStr_append, concatStr, List.map_map, Function.comp_def,
            mergeOpenParen, mergePrimaryKey, mergeTextNotNull, mergeCommaQuote,
            String.append_assoc, -String.reduceAppend]
  cases overwriteExisting <;>
    simp [initVectorstoreTableStatements, dropTableStatement, hcreate]

/-- C1: when both username and password are non-empty, `getUser` returns the
username with IAM disabled and no error, regardless of every other field
(including a non-empty identity email and any retrieval function), and the
email retriever is never invoked. -/
theorem getUser_both_credentials (cfg : engineConfig)
    (hu : cfg.user ≠ "") (hp : cfg.password ≠ "") :
    (getUser cfg).1 = Except.ok (cfg.user, false) ∧ (getUser cfg).2 = 0 := by
  simp [getUser, hu, hp]

/-- Concrete configuration for the C1 witness: both credentials set and every
other field non-trivial, including a live retriever. -/
def witnessConfigC1 : engineConfig :=
  { projectID := "p", region := "r", cluster := "c", instanceName := "i",
    user := "alice", password := "secret", database := "db", ipType := "PRIVATE",
    iamAccountEmail := "sa@example.com",
    emailRetreiver := fun _ => Except.ok "env@example.com" }

theorem getUser_both_credentials_witness :
    (getUser witnessConfigC1).1 = Except.ok ("alice", false)
      ∧ (getUser witnessConfigC1).2 = 0 :=
  getUser_both_credentials witnessConfigC1 (by decide) (by decide)

/-- C2: with username, password and identity email all empty, `getUser` invokes
the email retriever exactly once; a successful retrieval of `e` yields
`(e, IAM=true)` with no error; a failing retrieval with cause `c` yields an
error wrapping `c` with the prefix "unable to retrieve service account email". -/
theorem getUser_retrieves_email (cfg : engineConfig)
    (hu : cfg.user = "") (hp : cfg.password = "") (he : cfg.iamAccountEmail = "") :
    (getUser cfg).2 = 1
      ∧ (∀ e, cfg.emailRetreiver () = Except.ok e →
          (getUser cfg).1 = Except.ok (e, true))
      ∧ (∀ c, cfg.emailRetreiver () = Except.error c →
          (getUser cfg).1
            = Except.error ("unable to retrieve service account email: " ++ c)) := by
  cases hr : cfg.emailRetreiver () with
  | ok e => simp [getUser, hu, hp, he, hr]
  | error c => simp [getUser, hu, hp, he, hr]

/-- Concrete configuration for the C2 witness, successful retrieval. -/
def witnessConfigC2 : engineConfig :=
  { emailRetreiver := fun _ => Except.ok "env@example.com" }

/-- Concrete configuration for the C2 witness, failing retrieval. -/
def witnessConfigC2e : engineConfig :=
  { emailRetreiver := fun _ => Except.error "missing or invalid credentials" }

theorem getUser_retrieves_email_witness :
    (getUser witnessConfigC2).2 = 1
      ∧ (getUser witnessConfigC2).1 = Except.ok ("env@example.com", true)
      ∧ (getUser witnessConfigC2e).1
          = Except.error
              "unable to retrieve service account email: missing or invalid credentials" :=
  ⟨(getUser_retrieves_email witnessConfigC2 rfl rfl rfl).1,
   (getUser_retrieves_email witnessConfigC2 rfl rfl rfl).2.1 "env@example.com" rfl,
   by
     have h := (getUser_retrieves_email witnessConfigC2e rfl rfl rfl).2.2
       "missing or invalid credentials" rfl
     simpa using h⟩

/-- C3: with exactly one of username/password non-empty (either ordering): a
non-empty identity email yields (identity-email, IAM=true) with no error; an
empty identity email fails with "unable to retrieve a valid username"; and the
email retriever is never invoked. -/
theorem getUser_partial_credentials (cfg : engineConfig)
    (h : (cfg.user = "" ∧ cfg.password ≠ "") ∨ (cfg.user ≠ "" ∧ cfg.password = "")) :
    (cfg.iamAccountEmail ≠ "" →
        (getUser cfg).1 = Except.ok (cfg.iamAccountEmail, true))
      ∧ (cfg.iamAccountEmail = "" →
        (getUser cfg).1 = Except.error "unable to retrieve a valid username")
      ∧ (getUser cfg).2 = 0 := by
  by_cases he : cfg.iamAccountEmail = "" <;>
    rcases h with ⟨hu, hp⟩ | ⟨hu, hp⟩ <;>
    simp [getUser, hu, hp, he]

/-- Concrete configuration for the C3 witness: username only, identity email set. -/
def witnessConfigC3a : engineConfig :=
  { user := "alice", iamAccountEmail := "sa@example.com" }

/-- Concrete configuration for the C3 witness: password only, no identity email. -/
def witnessConfigC3b : engineConfig :=
  { password := "secret" }

theorem getUser_partial_credentials_witness :
    (getUser witnessConfigC3a).1 = Except.ok ("sa@example.com", true)
      ∧ (getUser witnessConfigC3b).1
          = Except.error "unable to retrieve a valid username"
      ∧ (getUser witnessConfigC3a).2 = 0 ∧ (getUser witnessConfigC3b).2 = 0 :=
  ⟨(getUser_partial_credentials witnessConfigC3a (Or.inr ⟨by decide, rfl⟩)).1 (by decide),
   (getUser_partial_credentials witnessConfigC3b (Or.inl ⟨rfl, by decide⟩)).2.1 rfl,
   (getUser_partial_credentials witnessConfigC3a (Or.inr ⟨by decide, rfl⟩)).2.2,
   (getUser_partial_credentials witnessConfigC3b (Or.inl ⟨rfl, by decide⟩)).2.2⟩

/-- Helper: the only `getUser` branch that reports IAM disabled is the
username-and-password branch, so the resolved user is the configured one. -/
theorem getUser_ok_false (cfg : engineConfig) (user : String)
    (h : (getUser cfg).1 = Except.ok (user, false)) : user = cfg.user := by
  by_cases h1 : cfg.user ≠ "" ∧ cfg.password ≠ ""
  · simp [getUser, h1] at h
    exact h.symm
  · by_cases h2 : cfg.iamAccountEmail ≠ ""
    · simp [getUser, h1, h2] at h
    · by_cases h3 : cfg.user = "" ∧ cfg.password = "" ∧ cfg.iamAccountEmail = ""
      · cases hr : cfg.emailRetreiver () <;> simp [getUser, h1, h2, h3, hr] at h
      · simp [getUser, h1, h2, h3] at h

/-- C4: after identity resolution, the descriptor built by `createPool` carries
the resolved username as its user part and the configured database as its
dbname part; in IAM mode it has no password part and is independent of the
configured password; in non-IAM mode it carries the configured password. -/
theorem createPool_dsn_fields (cfg : engineConfig) (user : String) (usingIAMAuth : Bool)
    (h : (getUser cfg).1 = Except.ok (user, usingIAMAuth)) :
    (usingIAMAuth = true →
        createPoolDSN (if usingIAMAuth then { cfg with user := user } else cfg) usingIAMAuth
          = "user=" ++ user ++ " dbname=" ++ cfg.database ++ " sslmode=disable"
        ∧ ∀ p, createPoolDSN { cfg with user := user, password := p } usingIAMAuth
            = createPoolDSN { cfg with user := user } usingIAMAuth)
      ∧ (usingIAMAuth = false →
        createPoolDSN (if usingIAMAuth then { cfg with user := user } else cfg) usingIAMAuth
          = "user=" ++ user ++ " password=" ++ cfg.password ++ " dbname="
            ++ cfg.database ++ " sslmode=disable") := by
  constructor
  · intro hIAM
    subst hIAM
    exact ⟨by simp [createPoolDSN], fun p => by simp [createPoolDSN]⟩
  · intro hIAM
    subst hIAM
    have huser : user = cfg.user := getUser_ok_false cfg user h
    subst huser
    simp [createPoolDSN]

/-- Concrete configuration for the C4 witness, static-credential mode. -/
def witnessConfigC4 : engineConfig :=
  { user := "alice", password := "secret", database := "db" }

/-- Concrete configuration for the C4 witness, IAM mode via identity email. -/
def witnessConfigC4i : engineConfig :=
  { iamAccountEmail := "sa@example.com", database := "db", password := "ignored" }

theorem createPool_dsn_fields_witness :
    createPoolDSN witnessConfigC4 false
        = "user=alice password=secret dbname=db sslmode=disable"
      ∧ createPoolDSN { witnessConfigC4i with user := "sa@example.com" } true
          = "user=sa@example.com dbname=db sslmode=disable"
      ∧ createPoolDSN { witnessConfigC4i with user := "sa@example.com", password := "other" }
          true
        = createPoolDSN { witnessConfigC4i with user := "sa@example.com" } true := by
  refine ⟨?_, ?_, ?_⟩
  · have h := (createPool_dsn_fields witnessConfigC4 "alice" false rfl).2 rfl
    simpa using h
  · have h := ((createPool_dsn_fields witnessConfigC4i "sa@example.com" true rfl).1 rfl).1
    simpa using h
  · exact ((createPool_dsn_fields witnessConfigC4i "sa@example.com" true rfl).1 rfl).2
      "other"

/-- C6: `NewVectorstoreTableOptions` is pure validation plus total default
substitution: it fails exactly when the table name is empty or the vector size
is 0 (with the source's messages, and without any I/O in this pure function);
otherwise it returns the options with an empty schema name defaulted to
"public", empty content/embedding/metadata-json column names defaulted to
"content"/"embedding"/"langchain_metadata", and non-empty inputs preserved;
independently, an id column with empty name or data type is defaulted by the
table builder to "langchain_id"/"UUID". -/
theorem newVectorstoreTableOptions_defaults (opts : VectorstoreTableOptions) :
    (opts.TableName = "" →
        NewVectorstoreTableOptions opts = Except.error "missing table name in options")
      ∧ (opts.TableName ≠ "" → opts.VectorSize = 0 →
        NewVectorstoreTableOptions opts = Except.error "missing vector size in options")
      ∧ (opts.TableName ≠ "" → opts.VectorSize ≠ 0 →
        NewVectorstoreTableOptions opts = Except.ok
          { TableName := opts.TableName
            VectorSize := opts.VectorSize
            SchemaName := if opts.SchemaName ≠ "" then opts.SchemaName else "public"
            ContentColumnName :=
              if opts.ContentColumnName ≠ "" then opts.ContentColumnName else "content"
            EmbeddingColumn :=
              if opts.EmbeddingColumn ≠ "" then opts.EmbeddingColumn else "embedding"
            MetadataJsonColumn :=
              if opts.MetadataJsonColumn ≠ "" then opts.MetadataJsonColumn
              else "langchain_metadata" })
      ∧ (∀ vsTableOpts metadataColumns nullable storeMetadata,
        initVectorstoreTableCreateQuery vsTableOpts metadataColumns
            { Name := "", DataType := "", Nullable := nullable } storeMetadata
          = initVectorstoreTableCreateQuery vsTableOpts metadataColumns
              { Name := "langchain_id", DataType := "UUID", Nullable := nullable }
              storeMetadata) := by
  refine ⟨?_, ?_, ?_, ?_⟩
  · intro h; simp [NewVectorstoreTableOptions, h]
  · intro h1 h2; simp [NewVectorstoreTableOptions, h1, h2]
  · intro h1 h2; simp [NewVectorstoreTableOptions, h1, h2]
  · intro vsTableOpts metadataColumns nullable storeMetadata
    simp [initVectorstoreTableCreateQuery]

theorem newVectorstoreTableOptions_defaults_witness :
    NewVectorstoreTableOptions { TableName := "t", VectorSize := 128 }
        = Except.ok
            { TableName := "t", VectorSize := 128, SchemaName := "public",
              ContentColumnName := "content", EmbeddingColumn := "embedding",
              MetadataJsonColumn := "langchain_metadata" }
      ∧ NewVectorstoreTableOptions { TableName := "", VectorSize := 128 }
          = Except.error "missing table name in options"
      ∧ NewVectorstoreTableOptions { TableName := "t", VectorSize := 0 }
          = Except.error "missing vector size in options"
      ∧ initVectorstoreTableCreateQuery
            { TableName := "t", VectorSize := 2, SchemaName := "public",
              ContentColumnName := "content", EmbeddingColumn := "embedding",
              MetadataJsonColumn := "langchain_metadata" }
            [] { Name := "", DataType := "", Nullable := false } false
        = initVectorstoreTableCreateQuery
            { TableName := "t", VectorSize := 2, SchemaName := "public",
              ContentColumnName := "content", EmbeddingColumn := "embedding",
              MetadataJsonColumn := "langchain_metadata" }
            [] { Name := "langchain_id", DataType := "UUID", Nullable := false } false := by
  refine ⟨?_, ?_, ?_, ?_⟩
  · have h := (newVectorstoreTableOptions_defaults
      { TableName := "t", VectorSize := 128 }).2.2.1 (by decide) (by decide)
    simpa using h
  · exact (newVectorstoreTableOptions_defaults
      { TableName := "", VectorSize := 128 }).1 rfl
  · exact (newVectorstoreTableOptions_defaults
      { TableName := "t", VectorSize := 0 }).2.1 (by decide) rfl
  · exact (newVectorstoreTableOptions_defaults
      { TableName := "t", VectorSize := 2 }).2.2.2
      { TableName := "t", VectorSize := 2, SchemaName := "public",
        ContentColumnName := "content", EmbeddingColumn := "embedding",
        MetadataJsonColumn := "langchain_metadata" } [] false false

/-- C7: chat-history provisioning is deterministic and idempotent: the single
generated statement is the same CREATE TABLE IF NOT EXISTS statement with the
fixed columns (id SERIAL PRIMARY KEY, session_id TEXT NOT NULL, data JSONB NOT
NULL, type TEXT NOT NULL) on every invocation, and a second invocation with
identical arguments, from any catalog state, succeeds and leaves the catalog
unchanged. -/
theorem initChatHistoryTable_idempotent (db : Database) (tableName schemaName : String) :
    initChatHistoryTableQuery tableName schemaName
        = "CREATE TABLE IF NOT EXISTS \"" ++ schemaName ++ "\".\"" ++ tableName
          ++ "\" (\n\t\tid SERIAL PRIMARY KEY,\n\t\tsession_id TEXT NOT NULL,\n\t\tdata JSONB NOT NULL,\n\t\ttype TEXT NOT NULL\n\t);"
      ∧ ∃ db1, InitChatHistoryTable db tableName schemaName = Except.ok db1
          ∧ InitChatHistoryTable db1 tableName schemaName = Except.ok db1 := by
  refine ⟨by simp [initChatHistoryTableQuery, String.append_assoc], ?_⟩
  by_cases hmem : (schemaName, tableName) ∈ db
  · exact ⟨db, by simp [InitChatHistoryTable, execCreateTableIfNotExists, hmem],
      by simp [InitChatHistoryTable, execCreateTableIfNotExists, hmem]⟩
  · refine ⟨(schemaName, tableName) :: db, ?_, ?_⟩
    · simp [InitChatHistoryTable, execCreateTableIfNotExists, hmem]
    · simp [InitChatHistoryTable, execCreateTableIfNotExists]

/-- C8: `Close` is safe in every prior state: it always returns without fault
(never dereferences a nil pool), it leaves a never-opened engine (nil pool)
unchanged, and after any successful call a repeated call also succeeds. -/
theorem close_total_safe (p : PostgresEngine) :
    (∃ q, p.Close = Except.ok q)
      ∧ (p.Pool = none → p.Close = Except.ok p)
      ∧ (∀ q, p.Close = Except.ok q → ∃ r, q.Close = Except.ok r) := by
  rcases p with ⟨pool⟩
  cases pool with
  | none =>
    refine ⟨⟨_, rfl⟩, fun _ => rfl, fun q hq => ?_⟩
    simp only [PostgresEngine.Close] at hq
    cases hq
    exact ⟨_, rfl⟩
  | some st =>
    refine ⟨⟨_, rfl⟩, by simp, fun q hq => ?_⟩
    simp only [PostgresEngine.Close] at hq
    cases hq
    exact ⟨_, rfl⟩

theorem close_total_safe_witness :
    PostgresEngine.Close { Pool := none } = Except.ok ({ Pool := none } : PostgresEngine)
      ∧ ∃ r, PostgresEngine.Close { Pool := some PoolState.closed } = Except.ok r :=
  ⟨(close_total_safe { Pool := none }).2.1 rfl,
   (close_total_safe { Pool := some PoolState.live }).2.2
     { Pool := some PoolState.closed } rfl⟩

/-- C9: the installed dial function always dials the fully-qualified instance
URI "projects/P/locations/R/clusters/C/instances/I" built from the
configuration, and selects the private network path exactly when the IP-type
field is the exact string "PRIVATE"; every other value (including "" and
"private") selects the public path. -/
theorem dialFunc_target_and_path (cfg : engineConfig) :
    (dialFunc cfg).1
        = "projects/" ++ cfg.projectID ++ "/locations/" ++ cfg.region
          ++ "/clusters/" ++ cfg.cluster ++ "/instances/" ++ cfg.instanceName
      ∧ ((dialFunc cfg).2 = IPPath.privateIP ↔ cfg.ipType = "PRIVATE") := by
  by_cases h : cfg.ipType = "PRIVATE" <;> simp [dialFunc, instanceURI, h]

/-- C10: error-path shapes of `NewPostgresEngine`: a failure of option
application yields a nil engine with that error; a failure of identity
resolution yields a nil engine with the wrapped error; a failure of pool
construction (with no pre-supplied pool) yields a NON-nil empty engine (nil
pool reference) together with the error, and `Close` on that returned engine
is a safe no-op. -/
theorem newPostgresEngine_error_shapes (backend : PoolBackend) (cfg : engineConfig)
    (e : String) :
    NewPostgresEngine backend (Except.error e) = (none, some e)
      ∧ (∀ msg, (getUser cfg).1 = Except.error msg →
          NewPostgresEngine backend (Except.ok cfg)
            = (none, some ("error assigning user. Err: " ++ msg)))
      ∧ (∀ user usingIAMAuth,
          (getUser cfg).1 = Except.ok (user, usingIAMAuth) →
          cfg.connPool = none →
          ∀ perr,
            createPool backend (if usingIAMAuth then { cfg with user := user } else cfg)
                usingIAMAuth = Except.error perr →
            NewPostgresEngine backend (Except.ok cfg)
              = (some { Pool := none }, some perr)
              ∧ PostgresEngine.Close { Pool := none }
                  = Except.ok ({ Pool := none } : PostgresEngine)) := by
  refine ⟨rfl, ?_, ?_⟩
  · intro msg hmsg
    simp [NewPostgresEngine, hmsg]
  · intro user usingIAMAuth hok hpool perr hcp
    refine ⟨?_, rfl⟩
    cases usingIAMAuth <;> simp [NewPostgresEngine, hok, hpool] at hcp ⊢ <;> simp [hcp]

/-- Backend for the C10 witness: dialer initialization fails. -/
def witnessBackendC10 : PoolBackend :=
  { newDialer := Except.error "dial fail", parseConfig := fun _ => Except.ok (),
    newWithConfig := Except.ok PoolState.live }

/-- Configuration for the C10 witness, pool-construction-failure path. -/
def witnessConfigC10 : engineConfig :=
  { user := "alice", password := "secret" }

/-- Configuration for the C10 witness, identity-resolution-failure path. -/
def witnessConfigC10b : engineConfig :=
  { user := "bob" }

theorem newPostgresEngine_error_shapes_witness :
    NewPostgresEngine witnessBackendC10 (Except.error "opts fail")
        = (none, some "opts fail")
      ∧ NewPostgresEngine witnessBackendC10 (Except.ok witnessConfigC10b)
          = (none, some "error assigning user. Err: unable to retrieve a valid username")
      ∧ NewPostgresEngine witnessBackendC10 (Except.ok witnessConfigC10)
          = (some { Pool := none }, some "failed to initialize connection: dial fail") := by
  refine ⟨?_, ?_, ?_⟩
  · exact (newPostgresEngine_error_shapes witnessBackendC10 witnessConfigC10 "opts fail").1
  · have h := (newPostgresEngine_error_shapes witnessBackendC10 witnessConfigC10b
      "unused").2.1 "unable to retrieve a valid username" rfl
    simpa using h
  · have h := ((newPostgresEngine_error_shapes witnessBackendC10 witnessConfigC10
      "unused").2.2 "alice" false rfl rfl
      "failed to initialize connection: dial fail" rfl).1
    simpa using h
